import Mathlib

/-!
Verification of the training orchestration core of
`src/hyperpose/Model/openpose/train.py` (HyperPose).

The Python source is shallowly embedded below: learning rates are modelled
as rationals, machine step counters as naturals, and the relevant control
flow of `single_train`, `parallel_train`, `optimize_step`, `one_step` and
`_data_aug_fn` as explicit Lean functions.  Every definition is translated
from the source file; line numbers in the doc comments refer to it.
-/

namespace Hyperpose

/-- hard-coded decay thresholds `lr_decay_steps` (train.py lines 121 and 324). -/
def lrDecaySteps : List ℕ :=
  [200000, 300000, 360000, 420000, 480000, 540000, 600000, 700000, 800000, 900000]

/-- in-loop learning-rate decay update of `single_train` (train.py lines 256-259):
when the current step is exactly one of the thresholds, the learning rate is reset
to `lr_init * lr_decay_factor ^ (index + 1)`; otherwise it is left unchanged. -/
def lrStepUpdate (li f : ℚ) (s : ℕ) (lr : ℚ) : ℚ :=
  if s ∈ lrDecaySteps then li * f ^ (lrDecaySteps.indexOf s + 1) else lr

/-- learning rate in effect at step `s` of a fresh `single_train` run: the loop
visits every step value in order and applies `lrStepUpdate` at each one
(train.py lines 244-259, with `step` starting from `save_step = 1`). -/
def lrAt (li f : ℚ) : ℕ → ℚ
  | 0 => li
  | s + 1 => lrStepUpdate li f (s + 1) (lrAt li f s)

/-- number of decay thresholds that are at most `s`. -/
def countThresholdsLe (s : ℕ) : ℕ :=
  (lrDecaySteps.filter (fun t => decide (t ≤ s))).length

lemma thresholds_ge (t : ℕ) (h : t ∈ lrDecaySteps) : 200000 ≤ t := by
  fin_cases h <;> decide

lemma indexOf_add_one_eq_count (s : ℕ) (h : s ∈ lrDecaySteps) :
    lrDecaySteps.indexOf s + 1 = countThresholdsLe s := by
  fin_cases h <;> decide

lemma length_filter_le_succ (l : List ℕ) (n : ℕ) (h : n + 1 ∉ l) :
    (l.filter (fun t => decide (t ≤ n + 1))).length
      = (l.filter (fun t => decide (t ≤ n))).length := by
  induction l with
  | nil => rfl
  | cons a l ih =>
    simp only [List.mem_cons, not_or] at h
    by_cases hle : a ≤ n
    · have hle1 : a ≤ n + 1 := by omega
      simp [List.filter_cons, hle, hle1, ih h.2]
    · have hle1 : ¬ a ≤ n + 1 := by omega
      simp [List.filter_cons, hle, hle1, ih h.2]

lemma countThresholdsLe_succ_of_not_mem (n : ℕ) (h : n + 1 ∉ lrDecaySteps) :
    countThresholdsLe (n + 1) = countThresholdsLe n :=
  length_filter_le_succ lrDecaySteps n h

lemma lrAt_eq (li f : ℚ) : ∀ s, lrAt li f s = li * f ^ countThresholdsLe s := by
  intro s
  induction s with
  | zero =>
    have h0 : countThresholdsLe 0 = 0 := by decide
    simp [lrAt, h0]
  | succ n ih =>
    by_cases hmem : (n + 1) ∈ lrDecaySteps
    · simp only [lrAt, lrStepUpdate, if_pos hmem]
      rw [indexOf_add_one_eq_count (n + 1) hmem]
    · simp only [lrAt, lrStepUpdate, if_neg hmem]
      rw [ih, countThresholdsLe_succ_of_not_mem n hmem]

lemma countThresholdsLe_mono {s t : ℕ} (h : s ≤ t) :
    countThresholdsLe s ≤ countThresholdsLe t := by
  unfold countThresholdsLe
  apply List.Sublist.length_le
  apply List.monotone_filter_right
  intro a ha
  simp only [decide_eq_true_eq] at ha ⊢
  omega

/-- C1: on a fresh run the learning rate in effect at step `s` equals
`lr_init * lr_decay_factor ^ (number of thresholds ≤ s)`, and it is
monotonically non-increasing in `s` when the shared multiplier is at most 1
(and both quantities are nonnegative, as learning rates are). -/
theorem lr_schedule_closed_form_and_antitone (li f : ℚ)
    (h0 : 0 ≤ li) (hf0 : 0 ≤ f) (hf1 : f ≤ 1) :
    (∀ s, lrAt li f s = li * f ^ countThresholdsLe s) ∧
    (∀ s t, s ≤ t → lrAt li f t ≤ lrAt li f s) := by
  constructor
  · exact lrAt_eq li f
  · intro s t hst
    rw [lrAt_eq, lrAt_eq]
    exact mul_le_mul_of_nonneg_left
      (pow_le_pow_of_le_one hf0 hf1 (countThresholdsLe_mono hst)) h0

/-- C1 witness: the theorem instantiated at `lr_init = 1`, `f = 1/2`,
concrete steps. -/
theorem lr_schedule_closed_form_and_antitone_witness :
    lrAt 1 (1/2) 3 = 1 * (1/2) ^ countThresholdsLe 3 ∧
    lrAt 1 (1/2) 5 ≤ lrAt 1 (1/2) 2 :=
  ⟨(lr_schedule_closed_form_and_antitone 1 (1/2) (by norm_num) (by norm_num)
      (by norm_num)).1 3,
   (lr_schedule_closed_form_and_antitone 1 (1/2) (by norm_num) (by norm_num)
      (by norm_num)).2 2 5 (by norm_num)⟩

/-- state of one `single_train` loop iteration: the local variable `lr`
(recomputed by the decay check, train.py lines 256-259) paired with the
`save_lr` variable that the Adam optimizer actually reads (it was created
with `learning_rate=save_lr`, line 162).  `save_lr` is assigned the current
`lr` only inside the periodic save branch (lines 275-279), i.e. when the
step is a multiple of `save_interval`.  Fresh start: both equal `lr_init`
(lines 160-161 with `save_step = 1`). -/
def lrLoopState (li f : ℚ) (si : ℕ) : ℕ → ℚ × ℚ
  | 0 => (li, li)
  | s + 1 =>
    let p := lrLoopState li f si s
    let lr1 := lrStepUpdate li f (s + 1) p.1
    (lr1, if (s + 1) % si = 0 then lr1 else p.2)

/-- learning rate the optimizer applies during the parameter update at step
`s` (s ≥ 1): the content of `save_lr` before the save branch of step `s`
runs, i.e. the second component of the state after step `s - 1`. -/
def optimizerLrUsed (li f : ℚ) (si s : ℕ) : ℚ := (lrLoopState li f si (s - 1)).2

/-- scheduler learning rate for global step `s` (the value `single_train`
recomputes and logs each iteration). -/
def schedulerLr (li f : ℚ) (s : ℕ) : ℚ := lrAt li f s

lemma lrLoopState_stable (li f : ℚ) :
    ∀ s, s < 200000 → lrLoopState li f 300000 s = (li, li) := by
  intro s
  induction s with
  | zero => intro _; rfl
  | succ n ih =>
    intro h
    have hn := ih (by omega)
    have h1 : (n + 1) ∉ lrDecaySteps := by
      intro hmem
      have := thresholds_ge (n + 1) hmem
      omega
    have h2 : ¬ (n + 1) % 300000 = 0 := by omega
    simp [lrLoopState, hn, lrStepUpdate, h1, h2]

/-- C2 is false of the code: at global step 200000 of a fresh run with
`lr_init = 1`, `lr_decay_factor = 1/2`, `save_interval = 300000`, the
scheduler learning rate is `1/2` but the optimizer applies its update with
`save_lr = 1`, because `save_lr` is only assigned at checkpoint saves. -/
theorem optimizer_lr_stale_at_decay_step :
    optimizerLrUsed 1 (1/2) 300000 200000 = 1 ∧
    schedulerLr 1 (1/2) 200000 = 1/2 ∧
    optimizerLrUsed 1 (1/2) 300000 200000 ≠ schedulerLr 1 (1/2) 200000 := by
  have hstable : lrLoopState 1 (1/2) 300000 199999 = (1, 1) :=
    lrLoopState_stable 1 (1/2) 199999 (by omega)
  have hopt : optimizerLrUsed 1 (1/2) 300000 200000 = 1 := by
    unfold optimizerLrUsed
    rw [show (200000 : ℕ) - 1 = 199999 from rfl, hstable]
  have hcount : countThresholdsLe 200000 = 1 := by decide
  have hsched : schedulerLr 1 (1/2) 200000 = 1/2 := by
    unfold schedulerLr
    rw [lrAt_eq, hcount]
    norm_num
  refine ⟨hopt, hsched, ?_⟩
  rw [hopt, hsched]
  norm_num

/-- `epoch_size = datasize // batch_size` (train.py line 151). -/
def epochSize (datasize batchSize : ℕ) : ℕ := datasize / batchSize

/-- `total_epoch = total_step // epoch_size` (train.py line 164). -/
def totalEpoch (totalStep es : ℕ) : ℕ := totalStep / es

/-- initial value of the step counter `save_step` on a fresh start
(train.py line 160: `tf.Variable(1)`). -/
def freshStep : ℕ := 1

/-- `cur_epoch = step // epoch_size + 1` (train.py line 240). -/
def curEpoch (step es : ℕ) : ℕ := step / es + 1

/-- number of loop iterations of a fresh `single_train` run: the epoch loop
is `range(cur_epoch, total_epoch)` (line 244) and each epoch runs
`epoch_size` iterations (line 246). -/
def numIterations (totalStep datasize batchSize : ℕ) : ℕ :=
  (totalEpoch totalStep (epochSize datasize batchSize)
    - curEpoch freshStep (epochSize datasize batchSize))
    * epochSize datasize batchSize

/-- step values visited by the loop body: `step` is incremented at the top
of each iteration (line 247), so iteration `k` (0-based) runs with
`step = freshStep + 1 + k`. -/
def visitedSteps (totalStep datasize batchSize : ℕ) : List ℕ :=
  (List.range (numIterations totalStep datasize batchSize)).map
    (fun k => freshStep + 1 + k)

/-- step values at which the checkpoint-save branch fires
(train.py line 275: `step != 0 and step % save_interval == 0`). -/
def saveSteps (totalStep datasize batchSize si : ℕ) : List ℕ :=
  (visitedSteps totalStep datasize batchSize).filter
    (fun s => decide (s ≠ 0) && decide (s % si = 0))

/-- samples drawn from the repeated dataset over the whole run: one batch of
`batch_size` samples per iteration (lines 153-155, 249). -/
def samplesConsumed (totalStep datasize batchSize : ℕ) : ℕ :=
  numIterations totalStep datasize batchSize * batchSize

/-- C3 is false of the code: with `total_step = 100`, `save_interval = 50`,
`batch_size = 4` on a 20-sample dataset, a fresh `single_train` run performs
95 iterations (steps 2..96), saves exactly once (at step 50, never at 100),
and the final step is 96, not 100.  The dataset-cycling part does hold:
380 samples are consumed, more than the 20 available. -/
theorem scenario_two_saves_fails :
    saveSteps 100 20 4 50 = [50] ∧
    saveSteps 100 20 4 50 ≠ [50, 100] ∧
    freshStep + numIterations 100 20 4 = 96 ∧
    (100 : ℕ) ∉ visitedSteps 100 20 4 ∧
    20 < samplesConsumed 100 20 4 := by decide

/-- initial value of the step counter variable in `parallel_train`
(train.py line 369: `step = tf.Variable(1)`). -/
def stepVarInit : ℕ := 1

/-- value bound to the Python name `step` after the threshold-rescaling loop
`for step_idx, step in enumerate(lr_decay_steps): ...` (train.py lines
409-410): the loop rebinds `step` to each original list element in turn, so
afterwards it holds the last original threshold. -/
def stepNameAfterRescale : ℕ := lrDecaySteps.getLastD 0

/-- the `is_first_batch` argument passed to `one_step` on every iteration of
the training loop (train.py line 446: `step==0`), evaluated with the `step`
binding in scope there. -/
def isFirstBatchArg : Bool := decide (stepNameAfterRescale = 0)

/-- number of iterations among the first `iters` on which `one_step`
performs the KungFu broadcast (train.py lines 428-430: it runs iff
`is_first_batch`). -/
def broadcastsPerformed (iters : ℕ) : ℕ :=
  (List.range iters).countP (fun _ => isFirstBatchArg)

/-- C4 is false of the code: the broadcast guard compares 900000 (the value
the rescaling loop left in `step`) with 0, so `is_first_batch` is `false`
on every iteration and the broadcast is performed zero times, not once —
and even the step variable itself starts at 1, never 0. -/
theorem first_step_broadcast_never_runs :
    stepNameAfterRescale = 900000 ∧
    isFirstBatchArg = false ∧
    stepVarInit ≠ 0 ∧
    broadcastsPerformed 100 = 0 := by decide

/-- components of the tuple produced for each sample by `_map_fn`
(train.py line 80: `return image, mask, target_x, labeled`), hence the
structure of each batch the pipeline yields. -/
inductive BatchComp
  | image
  | mask
  | target
  | labeled
deriving DecidableEq

/-- the batch tuple yielded by the `parallel_train` pipeline (built from
`paramed_map_fn` at train.py lines 360-366). -/
def parallelBatchTuple : List BatchComp :=
  [BatchComp.image, BatchComp.mask, BatchComp.target, BatchComp.labeled]

/-- Python tuple unpacking `x1, ..., xk = tup`: succeeds exactly when the
tuple has `k` elements, otherwise raises. -/
def tupleUnpack {α : Type} (vars : ℕ) (tup : List α) : Option (List α) :=
  if tup.length = vars then some tup else none

/-- number of names in the loop header of `parallel_train`
(train.py line 439: `for image, gt_label, mask in train_dataset`). -/
def parallelLoopArity : ℕ := 3

/-- a Python runtime value relevant to the `step` name: either the
`tf.Variable` or a plain integer. -/
inductive PyBinding
  | tfVariable (v : ℕ)
  | pyInt (v : ℕ)
deriving DecidableEq

/-- whether `x.assign_add(1)` is a valid call on the binding: only
`tf.Variable` supports it. -/
def supportsAssignAdd : PyBinding → Bool
  | PyBinding.tfVariable _ => true
  | PyBinding.pyInt _ => false

/-- the binding of the name `step` visible to `one_step` after the
rescaling loop of train.py lines 409-410 rebinds it to a plain integer. -/
def stepBindingAfterRescale : PyBinding :=
  PyBinding.pyInt (lrDecaySteps.getLastD 0)

/-- C5: the `parallel_train` loop fails on its first iteration — the
pipeline yields 4-element batches while the loop header unpacks into 3
names, and the `step.assign_add(1)` call inside `one_step` is invalid
because `step` has been rebound to a plain integer. -/
theorem parallel_train_first_iteration_fails :
    tupleUnpack parallelLoopArity parallelBatchTuple = none ∧
    supportsAssignAdd stepBindingAfterRescale = false := by decide

/-- outcome of `ckpt.restore(ckpt_manager.latest_checkpoint)` at startup
(train.py lines 179-184): either a stored (step, lr) pair is restored, or
the checkpoint is corrupt or absent. -/
inductive RestoreOutcome
  | restored (step : ℕ) (lr : ℚ)
  | corruptOrAbsent

/-- what `single_train` holds after the restore attempt. -/
structure StartupState where
  step : ℕ
  lr : ℚ
  fallbackLogged : Bool
  aborted : Bool

/-- startup restore of `single_train` (train.py lines 160-161, 179-184):
the restore attempt is wrapped in try/except, so a corrupt or absent
checkpoint logs the fallback line and leaves the freshly initialized
variables `save_step = 1`, `save_lr = lr_init` in place; the process never
aborts. -/
def startupRestore (li : ℚ) : RestoreOutcome → StartupState
  | RestoreOutcome.restored s l =>
      { step := s, lr := l, fallbackLogged := false, aborted := false }
  | RestoreOutcome.corruptOrAbsent =>
      { step := freshStep, lr := li, fallbackLogged := true, aborted := false }

/-- C6 counterexample: after a failed restore the freshly initialized step
counter is 1, not 0 as the claim states. -/
theorem startup_step_not_zero :
    (startupRestore 1 RestoreOutcome.corruptOrAbsent).step = 1 ∧
    (startupRestore 1 RestoreOutcome.corruptOrAbsent).step ≠ 0 := by
  exact ⟨rfl, by decide⟩

/-- C6 amended: a corrupt or absent checkpoint at startup does not abort
the process — the fallback message is logged and training begins from the
freshly initialized step counter value 1 (not 0) with `lr = lr_init`. -/
theorem startup_fallback_no_abort (li : ℚ) :
    (startupRestore li RestoreOutcome.corruptOrAbsent).aborted = false ∧
    (startupRestore li RestoreOutcome.corruptOrAbsent).fallbackLogged = true ∧
    (startupRestore li RestoreOutcome.corruptOrAbsent).step = freshStep ∧
    freshStep = 1 ∧
    (startupRestore li RestoreOutcome.corruptOrAbsent).lr = li :=
  ⟨rfl, rfl, rfl, rfl, rfl⟩

/-- C6 amended witness: the amended theorem at `lr_init = 1`. -/
theorem startup_fallback_no_abort_witness :
    (startupRestore 1 RestoreOutcome.corruptOrAbsent).aborted = false ∧
    (startupRestore 1 RestoreOutcome.corruptOrAbsent).fallbackLogged = true ∧
    (startupRestore 1 RestoreOutcome.corruptOrAbsent).step = freshStep ∧
    freshStep = 1 ∧
    (startupRestore 1 RestoreOutcome.corruptOrAbsent).lr = 1 :=
  startup_fallback_no_abort 1

/-- an image as a list of rows, each pixel a list of channel values
(shape H x W x C, as in `_data_aug_fn`). -/
def Image : Type := List (List (List ℚ))

/-- `np.ones_like(image)[:,:,0]`: the all-ones 2-D mask with the image's
spatial shape (train.py line 41). -/
def onesMask (image : Image) : List (List ℚ) :=
  image.map (fun row => row.map (fun _ => (1 : ℚ)))

/-- the mask-decode step of `_data_aug_fn` (train.py lines 39-41): if
`decode_mask` did not yield an array (absent or malformed mask, modelled as
`none`), default to the all-ones mask of the image's spatial shape. -/
def decodedMaskOrDefault (image : Image) : Option (List (List ℚ)) → List (List ℚ)
  | some m => m
  | none => onesMask image

/-- `image = image * mask[:,:,np.newaxis]` (train.py lines 45-46): each
pixel's channels are scaled by the mask value at that position. -/
def maskMultiply (image : Image) (mask : List (List ℚ)) : Image :=
  List.zipWith (fun row mrow =>
    List.zipWith (fun px m => px.map (fun c => c * m)) row mrow) image mask

lemma row_maskMultiply_ones (row : List (List ℚ)) :
    List.zipWith (fun px m => px.map (fun c => c * m))
      row (row.map (fun _ => (1 : ℚ))) = row := by
  induction row with
  | nil => rfl
  | cons px rest ih =>
    simp only [List.map_cons, List.zipWith_cons_cons, ih, mul_one]
    simp

lemma maskMultiply_onesMask (image : Image) :
    maskMultiply image (onesMask image) = image := by
  induction image with
  | nil => rfl
  | cons row rest ih =>
    simp only [maskMultiply, onesMask, List.map_cons, List.zipWith_cons_cons]
    refine congrArg₂ List.cons (row_maskMultiply_ones row) ?_
    simpa [maskMultiply, onesMask] using ih

/-- C7: when the mask is absent or malformed, `_data_aug_fn` substitutes
the all-ones mask with the image's spatial shape (same height, same row
widths), and multiplying the image by that all-ones mask leaves every
pixel unchanged.  The embedding is a total function, so no exception is
raised on the defaulting path. -/
theorem missing_mask_defaults_to_all_ones (image : Image) :
    decodedMaskOrDefault image none = onesMask image ∧
    (onesMask image).length = image.length ∧
    (onesMask image).map List.length = image.map List.length ∧
    maskMultiply image (onesMask image) = image := by
  refine ⟨rfl, ?_, ?_, maskMultiply_onesMask image⟩
  · simp [onesMask]
  · simp [onesMask, List.map_map, Function.comp]

/-- C7 witness: the theorem at a concrete 2 x 2 x 2 image. -/
theorem missing_mask_defaults_to_all_ones_witness :
    decodedMaskOrDefault [[[2, 3], [4, 5]], [[6, 7], [8, 9]]] none
      = onesMask [[[2, 3], [4, 5]], [[6, 7], [8, 9]]] ∧
    (onesMask [[[2, 3], [4, 5]], [[6, 7], [8, 9]]]).length
      = ([[[2, 3], [4, 5]], [[6, 7], [8, 9]]] : Image).length ∧
    (onesMask [[[2, 3], [4, 5]], [[6, 7], [8, 9]]]).map List.length
      = ([[[2, 3], [4, 5]], [[6, 7], [8, 9]]] : Image).map List.length ∧
    maskMultiply [[[2, 3], [4, 5]], [[6, 7], [8, 9]]]
        (onesMask [[[2, 3], [4, 5]], [[6, 7], [8, 9]]])
      = [[[2, 3], [4, 5]], [[6, 7], [8, 9]]] :=
  missing_mask_defaults_to_all_ones [[[2, 3], [4, 5]], [[6, 7], [8, 9]]]

/-- `tf.data` shard semantics used by `parallel_train` (train.py line 362,
`shard(num_shards=W, index=i)`): the sample at position `k` of the stream
belongs to shard `i` iff `k % W = i`.  These are the sample index sets of
one full pass over `n` samples. -/
def shardIndices (w i n : ℕ) : Finset ℕ :=
  (Finset.range n).filter (fun k => k % w = i)

/-- C8: for any worker count `W > 0`, over one full pass of the sample
stream the per-worker shards are pairwise disjoint and their union is the
full index set. -/
theorem shard_partition (w n : ℕ) (hw : 0 < w) :
    (∀ i j, i < w → j < w → i ≠ j →
      Disjoint (shardIndices w i n) (shardIndices w j n)) ∧
    (Finset.range w).biUnion (fun i => shardIndices w i n) = Finset.range n := by
  constructor
  · intro i j _ _ hij
    rw [Finset.disjoint_left]
    intro k hk hk2
    simp only [shardIndices, Finset.mem_filter] at hk hk2
    exact hij (hk.2 ▸ hk2.2)
  · ext k
    simp only [Finset.mem_biUnion, Finset.mem_range, shardIndices,
      Finset.mem_filter]
    constructor
    · rintro ⟨i, _, hk, _⟩
      exact hk
    · intro hk
      exact ⟨k % w, Nat.mod_lt k hw, hk, rfl⟩

/-- C8 witness: the theorem at `W = 2`, `n = 5`, shards 0 and 1. -/
theorem shard_partition_witness :
    Disjoint (shardIndices 2 0 5) (shardIndices 2 1 5) ∧
    (Finset.range 2).biUnion (fun i => shardIndices 2 i 5) = Finset.range 5 :=
  ⟨(shard_partition 2 5 (by decide)).1 0 1 (by decide) (by decide) (by decide),
   (shard_partition 2 5 (by decide)).2⟩

/-- artifacts written by the periodic save branch of `single_train`
(train.py lines 275-290). -/
inductive Artifact
  | ckptState
  | modelWeights
  | discriminatorWeights
deriving DecidableEq

/-- the save branch always saves the checkpoint and the model weights, and
saves the discriminator weights only under `if (domainadapt_flag)`
(train.py lines 287-290). -/
def savedArtifacts (domainadaptFlag : Bool) : List Artifact :=
  [Artifact.ckptState, Artifact.modelWeights]
    ++ (if domainadaptFlag then [Artifact.discriminatorWeights] else [])

/-- total loss optimized by `optimize_step` (train.py lines 217-223): the
model loss `cal_loss` (task plus regularization terms, owned by the model),
plus the generator-side adaptation loss only when domain adaptation is
enabled. -/
def optimizeStepTotalLoss (domainadaptFlag : Bool) (calLoss gAdaptLoss : ℚ) : ℚ :=
  if domainadaptFlag then calLoss + gAdaptLoss else calLoss

/-- total loss optimized by `one_step` in `parallel_train`
(train.py lines 421-423): `pd_loss + re_loss`. -/
def oneStepTotalLoss (pdLoss reLoss : ℚ) : ℚ := pdLoss + reLoss

/-- C9: with domain adaptation disabled, the discriminator-weights artifact
is never among the saved artifacts, the loss optimized by `optimize_step`
is the model loss with nothing added, and the loss optimized by `one_step`
is exactly task loss plus regularization loss. -/
theorem domainadapt_disabled_loss_and_artifacts (calLoss gAdaptLoss pdLoss reLoss : ℚ) :
    Artifact.discriminatorWeights ∉ savedArtifacts false ∧
    optimizeStepTotalLoss false calLoss gAdaptLoss = calLoss ∧
    oneStepTotalLoss pdLoss reLoss = pdLoss + reLoss :=
  ⟨by decide, rfl, rfl⟩

/-- C9 witness: the theorem at concrete loss values. -/
theorem domainadapt_disabled_loss_and_artifacts_witness :
    Artifact.discriminatorWeights ∉ savedArtifacts false ∧
    optimizeStepTotalLoss false 3 5 = 3 ∧
    oneStepTotalLoss 2 7 = 2 + 7 :=
  domainadapt_disabled_loss_and_artifacts 3 5 2 7

/-- the two optimizer objects created by `single_train` when domain
adaptation is enabled: `opt` (line 162) and `opt_d` (line 175). -/
inductive OptimizerId
  | optModel
  | optDis
deriving DecidableEq

/-- the two trainable parameter sets touched by `optimize_step`. -/
inductive ParamSet
  | modelParams
  | discriminatorParams
deriving DecidableEq

/-- one `apply_gradients` call: which optimizer object applies it and to
which parameter set. -/
structure GradUpdate where
  optimizer : OptimizerId
  params : ParamSet
deriving DecidableEq

/-- optimizer objects created by `single_train` (train.py lines 162, 175):
`opt_d` exists only when domain adaptation is enabled. -/
def createdOptimizers (domainadaptFlag : Bool) : List OptimizerId :=
  [OptimizerId.optModel]
    ++ (if domainadaptFlag then [OptimizerId.optDis] else [])

/-- gradient updates applied by one call of `optimize_step` (train.py lines
225-226 and 229-235): the model update via `opt`, then, when domain
adaptation is enabled, a second update on the discriminator's trainable
weights — applied, as written on line 235, with `opt` again, not `opt_d`. -/
def optimizeStepUpdates (domainadaptFlag : Bool) : List GradUpdate :=
  [{ optimizer := OptimizerId.optModel, params := ParamSet.modelParams }]
    ++ (if domainadaptFlag then
          [{ optimizer := OptimizerId.optModel,
             params := ParamSet.discriminatorParams }]
        else [])

/-- label tensor passed to the generator-side adaptation loss
(train.py line 221: `label=1 - labeled`). -/
def gAdaptLabel (labeled : ℚ) : ℚ := 1 - labeled

/-- label tensor passed to the discriminator loss
(train.py line 231: `label=labeled`). -/
def dAdaptLabel (labeled : ℚ) : ℚ := labeled

/-- C10 is partly false of the code: with domain adaptation enabled the
generator adaptation loss uses labels `1 - labeled` and is added to the
total optimized loss, the discriminator loss uses labels `labeled`, and a
second, separate gradient update does target the discriminator's
parameters — but that update is applied with the model's optimizer `opt`
(train.py line 235), while the dedicated discriminator optimizer `opt_d`
is created and checkpointed yet never used for any update. -/
theorem discriminator_update_uses_model_optimizer (labeled calLoss gAdaptLoss : ℚ) :
    optimizeStepUpdates true =
      [{ optimizer := OptimizerId.optModel, params := ParamSet.modelParams },
       { optimizer := OptimizerId.optModel,
         params := ParamSet.discriminatorParams }] ∧
    OptimizerId.optDis ∈ createdOptimizers true ∧
    ((optimizeStepUpdates true).map GradUpdate.optimizer).all
      (fun o => o == OptimizerId.optModel) = true ∧
    gAdaptLabel labeled = 1 - labeled ∧
    dAdaptLabel labeled = labeled ∧
    optimizeStepTotalLoss true calLoss gAdaptLoss = calLoss + gAdaptLoss :=
  ⟨by decide, by decide, by decide, rfl, rfl, rfl⟩

/-- C10 witness: the theorem at concrete values. -/
theorem discriminator_update_uses_model_optimizer_witness :
    optimizeStepUpdates true =
      [{ optimizer := OptimizerId.optModel, params := ParamSet.modelParams },
       { optimizer := OptimizerId.optModel,
         params := ParamSet.discriminatorParams }] ∧
    OptimizerId.optDis ∈ createdOptimizers true ∧
    ((optimizeStepUpdates true).map GradUpdate.optimizer).all
      (fun o => o == OptimizerId.optModel) = true ∧
    gAdaptLabel 1 = 1 - 1 ∧
    dAdaptLabel 1 = 1 ∧
    optimizeStepTotalLoss true 3 5 = 3 + 5 :=
  discriminator_update_uses_model_optimizer 1 3 5

end Hyperpose
